import Mathlib

/-!
Verification of the multi-convention static endpoint-extraction engine of the
doc-agent repository.  The Python sources under `src/analyzers/` are shallowly
embedded: Python AST nodes become inductive types, the analyzer methods become
total Lean functions, and the mutable per-instance state of the Django analyzer
(`url_patterns` / `viewsets` / `serializers`) is threaded explicitly.
Python's `re`-based match finding in `urls.py` files is treated as an oracle:
a file carries the capture groups its text yields, and the post-processing of
those matches is translated from the source.
-/

/-- A Python constant (the payload of an `ast.Constant` node), restricted to
the constant kinds the analyzers inspect: strings, integers, booleans, None. -/
inductive PyConst where
  | str (s : String)
  | int (i : Int)
  | bool (b : Bool)
  | none
deriving DecidableEq, Repr

/-- Python truthiness of a constant (`bool(c)`). -/
def PyConst.truthy : PyConst → Bool
  | .str s => !(s == "")
  | .int i => !(i == 0)
  | .bool b => b
  | .none => false

/-- Python `str()` applied to a constant. -/
def PyConst.pyStr : PyConst → String
  | .str s => s
  | .int i => toString i
  | .bool b => if b then "True" else "False"
  | .none => "None"

/-- Python `repr()` applied to a constant, as printed by `ast.unparse`. -/
def PyConst.pyRepr : PyConst → String
  | .str s => "'" ++ s ++ "'"
  | .int i => toString i
  | .bool b => if b then "True" else "False"
  | .none => "None"

/-- The fragment of Python expressions the analyzers pattern-match on:
constants, names, attribute access, calls with positional and keyword
arguments, list displays and subscripts.  A keyword argument is a pair of an
optional keyword name (`none` models `**kwargs`) and a value. -/
inductive PyExpr where
  | constant (c : PyConst)
  | name (id : String)
  | attribute (val : PyExpr) (attr : String)
  | call (func : PyExpr) (args : List PyExpr) (keywords : List (Option String × PyExpr))
  | listE (elts : List PyExpr)
  | subscript (val : PyExpr) (idx : PyExpr)
deriving Repr

/-- Model of `ast.unparse`: prints an expression back to source text.  The
real printer lives in CPython's standard library, outside the repository; the
analyzers only ever probe its output for substrings (`Serializer`,
`ViewSet`, `APIView`, `Path`, `Body`, `Header`, `Query`) or store it as an
opaque default-value string, so this model elides the printed text of call
arguments and list elements, where none of those probes ever look. -/
def unparse : PyExpr → String
  | .constant c => c.pyRepr
  | .name id => id
  | .attribute v a => unparse v ++ "." ++ a
  | .call f _ _ => unparse f ++ "(...)"
  | .listE _ => "[...]"
  | .subscript v i => unparse v ++ "[" ++ unparse i ++ "]"

/-- Python's substring test `needle in hay` on strings. -/
def strContains (hay needle : String) : Bool :=
  hay.toList.tails.any (fun t => needle.toList.isPrefixOf t)

/-- Python truthiness of a string. -/
def strTruthy (s : String) : Bool := !(s == "")

/-- Python `str.title()`: the first letter of every alphabetic run is
uppercased, the rest lowercased. -/
def pyTitle (s : String) : String :=
  (s.toList.foldl
    (fun (acc : String × Bool) c =>
      let isAl := c.isAlpha
      let c2 := if isAl then (if acc.2 then c.toLower else c.toUpper) else c
      (acc.1.push c2, isAl))
    ("", false)).1

/-- Python `str.upper()`, modelled character-wise. -/
def pyUpper (s : String) : String :=
  String.mk (s.toList.map Char.toUpper)

/-- A formal parameter of a Python function (`ast.arg`): its name and optional
type annotation. -/
structure PyArg where
  arg : String
  annot : Option PyExpr
deriving Repr

/-- A Python function definition (`ast.FunctionDef`) as the analyzers consume
it: name, decorator list, positional parameters, trailing default expressions,
optional return annotation, docstring (`ast.get_docstring`), line number. -/
structure PyFunctionDef where
  name : String
  decorator_list : List PyExpr
  args : List PyArg
  defaults : List PyExpr
  returns : Option PyExpr := Option.none
  docstring : Option String := Option.none
  lineno : Nat := 0
deriving Repr

/-- `EndpointParameter` from `src/analyzers/base.py`. -/
structure EndpointParameter where
  name : String
  param_type : String
  data_type : String
  required : Bool := true
  default : Option String := Option.none
  description : Option String := Option.none
deriving DecidableEq, Repr

/-- `EndpointInfo` from `src/analyzers/base.py`.  `path`, `tags` elements and
`status_code` hold `PyConst` because the Python code stores whatever constant
the source file carried (the dataclass annotations are unchecked). -/
structure EndpointInfo where
  path : PyConst
  method : String
  function_name : String
  summary : Option String := Option.none
  description : Option String := Option.none
  parameters : List EndpointParameter := []
  request_model : Option String := Option.none
  response_model : Option String := Option.none
  tags : List PyConst := []
  status_code : PyConst := .int 200
  file_path : String := ""
  line_number : Nat := 0
deriving DecidableEq, Repr

/-- `BaseAnalyzer._should_skip_file`'s fixed exclusion substrings. -/
def skipPatterns : List String :=
  ["__pycache__", "venv", "env", ".venv", ".git", "test_", "tests", "migrations"]

/-- `BaseAnalyzer._should_skip_file`: skip a file whose path contains any of
the fixed exclusion substrings. -/
def shouldSkipFile (path : String) : Bool :=
  skipPatterns.any (fun p => strContains path p)

/-- `BaseAnalyzer._parse_docstring`: empty or missing text yields no summary
and no description; otherwise the first line of the stripped text is the
summary and the remaining lines (stripped) the description. -/
def parseDocstring (docstring : Option String) : Option String × Option String :=
  match docstring with
  | Option.none => (Option.none, Option.none)
  | some s =>
    if s == "" then (Option.none, Option.none)
    else
      let lines := s.trim.splitOn "\n"
      (lines.head?,
       if lines.length > 1 then some ((String.intercalate "\n" (lines.drop 1)).trim)
       else Option.none)

/-! ## Single-pass (FastAPI) extractor, `src/analyzers/fastapi_analyzer.py` -/

/-- The fixed HTTP-verb names recognized on route decorators. -/
def httpMethods : List String :=
  ["get", "post", "put", "delete", "patch", "options", "head"]

/-- `FastAPIAnalyzer._parse_decorator`: a call whose callee is an attribute
access with the attribute among the verb names, and whose first positional
argument is a constant, yields that verb and constant. -/
def parseDecorator (d : PyExpr) : Option String × Option PyConst :=
  match d with
  | .call (.attribute _ attr) args _ =>
    if httpMethods.contains attr then
      match args.head? with
      | some (.constant c) => (some attr, some c)
      | _ => (Option.none, Option.none)
    else (Option.none, Option.none)
  | _ => (Option.none, Option.none)

/-- The `if method and path:` guard of `_extract_endpoint_from_function`:
a decorator matches when `_parse_decorator` yields a truthy verb and a truthy
path constant. -/
def decoratorRoute (d : PyExpr) : Option (String × PyConst) :=
  match parseDecorator d with
  | (some m, some p) => if strTruthy m && p.truthy then some (m, p) else Option.none
  | _ => Option.none

/-- `FastAPIAnalyzer._get_type_string`. -/
def getTypeString (ann : PyExpr) : String :=
  match ann with
  | .name id => id
  | .subscript _ _ => unparse ann
  | .attribute _ _ => unparse ann
  | _ => "Any"

/-- Stringification of a default expression in `_extract_parameters`:
`str(value)` for constants (with `None` printed as `"None"`), `ast.unparse`
otherwise. -/
def defaultValueStr (e : PyExpr) : String :=
  match e with
  | .constant c => if c == PyConst.none then "None" else c.pyStr
  | _ => unparse e

/-- The location classification chain of `_extract_parameters`: the default
`query` is overridden by the first of the substring checks `Path` / `Body` /
`Header` that fires on the stringified annotation text. -/
def locOf (ts : String) : String :=
  if strContains ts "Path" then "path"
  else if strContains ts "Body" then "body"
  else if strContains ts "Header" then "header"
  else "query"

/-- One iteration of the `_extract_parameters` loop for the argument at
enumeration index `i`: a parameter whose index falls in the trailing
defaulted window is optional with its default stringified; the location and
data type come from the annotation when present, else stay `query`/`string`. -/
def mkParam (numArgs numDefaults : Nat) (defaults : List PyExpr) (i : Nat)
    (a : PyArg) : EndpointParameter :=
  let defaultOffset : Int := (i : Int) - ((numArgs : Int) - (numDefaults : Int))
  let rd : Bool × Option String :=
    if 0 ≤ defaultOffset then
      (false, some (defaultValueStr (defaults.getD defaultOffset.toNat (.constant .none))))
    else (true, Option.none)
  let td : String × String :=
    match a.annot with
    | some ann =>
      let ts := getTypeString ann
      (locOf ts, ts)
    | Option.none => ("query", "string")
  { name := a.arg, param_type := td.1, data_type := td.2,
    required := rd.1, default := rd.2, description := Option.none }

/-- The loop of `FastAPIAnalyzer._extract_parameters`, recursing over the
argument list while tracking the enumeration index `i` (which advances on the
skipped `self`/`cls` receivers too). -/
def extractParamsAux (numArgs numDefaults : Nat) (defaults : List PyExpr) :
    Nat → List PyArg → List EndpointParameter
  | _, [] => []
  | i, a :: rest =>
    let tail := extractParamsAux numArgs numDefaults defaults (i + 1) rest
    if a.arg == "self" || a.arg == "cls" then tail
    else mkParam numArgs numDefaults defaults i a :: tail

/-- `FastAPIAnalyzer._extract_parameters`. -/
def extractParameters (f : PyFunctionDef) : List EndpointParameter :=
  extractParamsAux f.args.length f.defaults.length f.defaults 0 f.args

/-- `FastAPIAnalyzer._extract_models`: the response model is the stringified
return annotation, overridden by the last `response_model` keyword on the
decorator; the request model is the first parameter whose stringified type is
nonempty, starts with an uppercase letter and contains neither `Path` nor
`Query`. -/
def extractModels (f : PyFunctionDef) (d : PyExpr) : Option String × Option String :=
  let response0 : Option String :=
    match f.returns with
    | some r => some (getTypeString r)
    | Option.none => Option.none
  let response : Option String :=
    match d with
    | .call _ _ kws =>
      kws.foldl (fun acc kw =>
        if kw.1 == some "response_model" then some (getTypeString kw.2) else acc) response0
    | _ => response0
  let request : Option String :=
    f.args.findSome? (fun a =>
      match a.annot with
      | some ann =>
        let ts := getTypeString ann
        if strTruthy ts && (ts.toList.headD ' ').isUpper &&
            !(strContains ts "Path") && !(strContains ts "Query") then some ts
        else Option.none
      | Option.none => Option.none)
  (request, response)

/-- `FastAPIAnalyzer._extract_tags`: constant elements of every `tags` list
keyword on the decorator, in order. -/
def extractTags (d : PyExpr) : List PyConst :=
  match d with
  | .call _ _ kws =>
    kws.flatMap (fun kw =>
      if kw.1 == some "tags" then
        match kw.2 with
        | .listE elts =>
          elts.flatMap (fun e =>
            match e with
            | .constant c => [c]
            | _ => [])
        | _ => []
      else [])
  | _ => []

/-- `FastAPIAnalyzer._extract_status_code`: the first `status_code` keyword
carrying a constant, if any. -/
def extractStatusCode (d : PyExpr) : Option PyConst :=
  match d with
  | .call _ _ kws =>
    kws.findSome? (fun kw =>
      if kw.1 == some "status_code" then
        match kw.2 with
        | .constant c => some c
        | _ => Option.none
      else Option.none)
  | _ => Option.none

/-- The `_extract_status_code(decorator) or 200` idiom: a falsy or missing
extracted constant falls back to the integer 200. -/
def statusCodeVal (d : PyExpr) : PyConst :=
  match extractStatusCode d with
  | some c => if c.truthy then c else .int 200
  | Option.none => .int 200

/-- The `EndpointInfo` constructed by `_extract_endpoint_from_function` once a
decorator has matched. -/
def buildEndpointInfo (filePath : String) (f : PyFunctionDef) (d : PyExpr)
    (method : String) (path : PyConst) : EndpointInfo :=
  let sd := parseDocstring (some (f.docstring.getD ""))
  let rr := extractModels f d
  { path := path, method := pyUpper method, function_name := f.name,
    summary := sd.1, description := sd.2,
    parameters := extractParameters f,
    request_model := rr.1, response_model := rr.2,
    tags := extractTags d, status_code := statusCodeVal d,
    file_path := filePath, line_number := f.lineno }

/-- `FastAPIAnalyzer._extract_endpoint_from_function`: the first decorator
with a truthy verb/path match produces the endpoint; later decorators are
never consulted. -/
def extractEndpointFromFunction (filePath : String) (f : PyFunctionDef) :
    Option EndpointInfo :=
  f.decorator_list.findSome? (fun d =>
    match decoratorRoute d with
    | some mp => some (buildEndpointInfo filePath f d mp.1 mp.2)
    | Option.none => Option.none)

/-- A source file as the single-pass analyzer sees it: its project-relative
path and, when parsing succeeds, the function definitions in `ast.walk`
order (`none` models a file whose content fails to parse). -/
structure FastApiFile where
  path : String
  funcs : Option (List PyFunctionDef)

/-- `FastAPIAnalyzer._analyze_file`: a parse failure is caught (a diagnostic
is printed) and contributes no endpoints; otherwise every walked function is
offered to `_extract_endpoint_from_function`. -/
def analyzeFile (file : FastApiFile) : List EndpointInfo :=
  match file.funcs with
  | Option.none => []
  | some fs => fs.flatMap (fun f => (extractEndpointFromFunction file.path f).toList)

/-- `FastAPIAnalyzer.analyze`: reset the endpoint list, then analyze every
non-excluded Python file in order. -/
def fastapiAnalyze (files : List FastApiFile) : List EndpointInfo :=
  files.flatMap (fun file => if shouldSkipFile file.path then [] else analyzeFile file)

/-- The `analyze` method as invoked on an instance holding the previous call's
`self.endpoints`: the method begins with `self.endpoints = []`, so the result
and the new state ignore the prior state. -/
def fastapiAnalyzeMethod (_priorEndpoints : List EndpointInfo) (files : List FastApiFile) :
    List EndpointInfo × List EndpointInfo :=
  let r := fastapiAnalyze files
  (r, r)

/-! ## Multi-pass (Django) extractor, `src/analyzers/django_analyzer.py` -/

/-- A statement of a Python class body as `_extract_serializer_fields`,
`_get_serializer_class`, `_extract_viewset_actions`, `_extract_custom_actions`
and `_extract_apiview_methods` inspect it. -/
inductive ClassBodyItem where
  | funcDef (f : PyFunctionDef)
  | assign (targets : List PyExpr) (value : PyExpr)
  | annAssign (target : PyExpr)
  | other
deriving Repr

/-- A Python class definition (`ast.ClassDef`) as the analyzer consumes it. -/
structure PyClassDef where
  name : String
  bases : List PyExpr
  body : List ClassBodyItem
  docstring : Option String := Option.none
  lineno : Nat := 0
deriving Repr

/-- A node yielded by `ast.walk` over a Django source file, as far as
`_extract_views` cares: class definitions and function definitions (the walk
also yields class methods as `FunctionDef` nodes). -/
inductive DjangoNode where
  | classDef (c : PyClassDef)
  | funcDef (f : PyFunctionDef)
deriving Repr

/-- A Django source file: its project-relative path, its file name, its
`ast.walk` node sequence when parsing succeeds (`none` models a parse
failure), and the capture groups that the two `urls.py` regular expressions
yield on its raw text (the `re` engine is external; its matches are input). -/
structure DjangoFile where
  path : String
  name : String
  nodes : Option (List DjangoNode)
  routerMatches : List (String × String) := []
  pathMatches : List (String × String) := []

/-- `SerializerInfo` scratch record (the dict stored in `self.serializers`). -/
structure SerializerInfo where
  fields : List String
  file : String
deriving DecidableEq, Repr

/-- A custom `@action`-decorated method record
(`DjangoAnalyzer._parse_action_decorator`). -/
structure CustomAction where
  name : String
  methods : List String
  detail : PyConst
  docstring : Option String := Option.none
  line : Nat := 0
deriving DecidableEq, Repr

/-- An HTTP-method handler record (`DjangoAnalyzer._extract_apiview_methods`,
also reused for function-based views). -/
structure MethodInfo where
  method : String
  docstring : Option String := Option.none
  line : Nat := 0
deriving DecidableEq, Repr

/-- The union of the dict shapes stored in `self.viewsets` (viewset records,
APIView records, function-based-view records).  A key the Python dict lacks is
modelled by the corresponding `.get` default: `[]` for `actions`,
`custom_actions` and `methods`, `None` for `serializer` and `queryset`. -/
structure ViewInfo where
  name : String
  file : String
  line : Nat
  serializer : Option String := Option.none
  queryset : Option String := Option.none
  actions : List String := []
  custom_actions : List CustomAction := []
  methods : List MethodInfo := []
  docstring : Option String := Option.none
deriving DecidableEq, Repr

/-- A `self.url_patterns` entry: a router registration (URL prefix plus target
viewset name) or a `path()` declaration (URL plus target view name). -/
inductive UrlPattern where
  | router (pfx : String) (viewset : String) (file : String)
  | pathDecl (url : String) (view : String) (file : String)
deriving DecidableEq, Repr

/-- The target name a URL pattern must match against `self.viewsets`. -/
def UrlPattern.target : UrlPattern → String
  | .router _ t _ => t
  | .pathDecl _ t _ => t

/-- The mutable per-instance state of `DjangoAnalyzer` that survives between
`analyze()` calls: `self.url_patterns`, `self.viewsets`, `self.serializers`
(the dicts are modelled as insertion-ordered association lists). -/
structure DjangoState where
  url_patterns : List UrlPattern
  viewsets : List (String × ViewInfo)
  serializers : List (String × SerializerInfo)

/-- The state `DjangoAnalyzer.__init__` establishes. -/
def DjangoState.initial : DjangoState := ⟨[], [], []⟩

/-- Python dict assignment `d[k] = v`: overwrite in place when the key exists,
append otherwise. -/
def dictInsert (d : List (String × α)) (k : String) (v : α) : List (String × α) :=
  if d.any (fun p => p.1 == k) then
    d.map (fun p => if p.1 == k then (k, v) else p)
  else d ++ [(k, v)]

/-- Python dict lookup `d[k]` / `k in d`. -/
def dictFind (d : List (String × α)) (k : String) : Option α :=
  (d.find? (fun p => p.1 == k)).map (fun p => p.2)

/-- `DjangoAnalyzer._is_serializer_class`: some base class whose unparsed text
contains `Serializer`. -/
def isSerializerClass (c : PyClassDef) : Bool :=
  c.bases.any (fun b => strContains (unparse b) "Serializer")

/-- `DjangoAnalyzer._extract_serializer_fields`: names assigned or
annotation-assigned directly in the class body, in declaration order. -/
def extractSerializerFields (body : List ClassBodyItem) : List String :=
  body.flatMap (fun item =>
    match item with
    | .assign targets _ =>
      targets.flatMap (fun t =>
        match t with
        | .name id => [id]
        | _ => [])
    | .annAssign (.name id) => [id]
    | _ => [])

/-- `DjangoAnalyzer._extract_serializers` over one parsed file (a parse
failure is caught and changes nothing). -/
def extractSerializersFromFile (st : DjangoState) (file : DjangoFile) : DjangoState :=
  match file.nodes with
  | Option.none => st
  | some nodes =>
    nodes.foldl
      (fun st n =>
        match n with
        | .classDef c =>
          if isSerializerClass c then
            { st with serializers :=
                dictInsert st.serializers c.name ⟨extractSerializerFields c.body, file.path⟩ }
          else st
        | _ => st)
      st

/-- `DjangoAnalyzer._get_view_type`: the first base class whose unparsed text
contains `ViewSet` makes the class a viewset; `APIView`/`GenericAPIView`
makes it an APIView. -/
def getViewType (c : PyClassDef) : Option String :=
  c.bases.findSome? (fun b =>
    let base_name := unparse b
    if strContains base_name "ViewSet" then some "viewset"
    else if strContains base_name "APIView" || strContains base_name "GenericAPIView" then
      some "apiview"
    else Option.none)

/-- `DjangoAnalyzer._get_serializer_class`: the value of a direct
`serializer_class = Name` assignment. -/
def getSerializerClass (body : List ClassBodyItem) : Option String :=
  body.findSome? (fun item =>
    match item with
    | .assign targets v =>
      targets.findSome? (fun t =>
        match t with
        | .name id =>
          if id == "serializer_class" then
            match v with
            | .name vid => some vid
            | _ => Option.none
          else Option.none
        | _ => Option.none)
    | _ => Option.none)

/-- The fixed standard-action name set of
`DjangoAnalyzer._extract_viewset_actions`. -/
def standardActions : List String :=
  ["list", "retrieve", "create", "update", "partial_update", "destroy"]

/-- `DjangoAnalyzer._extract_viewset_actions`: the standard-action methods the
class body defines, in declaration order. -/
def extractViewsetActions (body : List ClassBodyItem) : List String :=
  body.flatMap (fun item =>
    match item with
    | .funcDef f => if standardActions.contains f.name then [f.name] else []
    | _ => [])

/-- `DjangoAnalyzer._is_action_decorator`. -/
def isActionDecorator (d : PyExpr) : Bool :=
  match d with
  | .call (.name id) _ _ => id == "action"
  | .name id => id == "action"
  | _ => false

/-- `DjangoAnalyzer._parse_action_decorator`: keyword arguments `methods`
(string constants of a list display, default `["get"]`) and `detail`
(a constant, default `False`); a bare non-call decorator yields nothing. -/
def parseActionDecorator (d : PyExpr) (f : PyFunctionDef) : Option CustomAction :=
  match d with
  | .call _ _ kws =>
    let md : List String × PyConst :=
      kws.foldl
        (fun acc kw =>
          if kw.1 == some "methods" then
            match kw.2 with
            | .listE elts =>
              (elts.flatMap (fun e =>
                match e with
                | .constant (.str s) => [s]
                | _ => []), acc.2)
            | _ => acc
          else if kw.1 == some "detail" then
            match kw.2 with
            | .constant c => (acc.1, c)
            | _ => acc
          else acc)
        (["get"], PyConst.bool false)
    some ⟨f.name, md.1, md.2, f.docstring, f.lineno⟩
  | _ => Option.none

/-- `DjangoAnalyzer._extract_custom_actions`: every `@action`-decorated method
of the class body, one record per matching decorator. -/
def extractCustomActions (body : List ClassBodyItem) : List CustomAction :=
  body.flatMap (fun item =>
    match item with
    | .funcDef f =>
      f.decorator_list.flatMap (fun d =>
        if isActionDecorator d then (parseActionDecorator d f).toList else [])
    | _ => [])

/-- `DjangoAnalyzer._extract_viewset`: the record stored for a ViewSet class
(`_get_queryset_model` always yields `None` in the source). -/
def extractViewsetInfo (file : DjangoFile) (c : PyClassDef) : ViewInfo :=
  { name := c.name, file := file.path, line := c.lineno,
    serializer := getSerializerClass c.body,
    queryset := Option.none,
    actions := extractViewsetActions c.body,
    custom_actions := extractCustomActions c.body,
    docstring := c.docstring }

/-- The HTTP-verb method names `_extract_apiview_methods` recognizes. -/
def httpMethodsDjango : List String :=
  ["get", "post", "put", "patch", "delete", "head", "options"]

/-- `DjangoAnalyzer._extract_apiview_methods`. -/
def extractApiviewMethods (body : List ClassBodyItem) : List MethodInfo :=
  body.flatMap (fun item =>
    match item with
    | .funcDef f =>
      if httpMethodsDjango.contains f.name then
        [⟨pyUpper f.name, f.docstring, f.lineno⟩]
      else []
    | _ => [])

/-- `DjangoAnalyzer._extract_apiview`: the record stored for an APIView class. -/
def extractApiviewInfo (file : DjangoFile) (c : PyClassDef) : ViewInfo :=
  { name := c.name, file := file.path, line := c.lineno,
    methods := extractApiviewMethods c.body,
    docstring := c.docstring }

/-- `DjangoAnalyzer._has_api_view_decorator`. -/
def hasApiViewDecorator (f : PyFunctionDef) : Bool :=
  f.decorator_list.any (fun d =>
    match d with
    | .call (.name id) _ _ => id == "api_view"
    | .name id => id == "api_view"
    | _ => false)

/-- `DjangoAnalyzer._parse_api_view_decorator`: the string constants of the
first `api_view` call decorator carrying a list display argument. -/
def parseApiViewDecorator (f : PyFunctionDef) : List String :=
  match f.decorator_list.findSome? (fun d =>
    match d with
    | .call (.name id) args _ =>
      if id == "api_view" then
        match args.head? with
        | some (.listE elts) =>
          some (elts.flatMap (fun e =>
            match e with
            | .constant (.str s) => [s]
            | _ => []))
        | _ => Option.none
      else Option.none
    | _ => Option.none) with
  | some ms => ms
  | Option.none => []

/-- `DjangoAnalyzer._extract_function_based_view`: the record stored for an
`@api_view` function (methods default `["GET"]` when the decorator yields
none). -/
def extractFunctionBasedView (file : DjangoFile) (f : PyFunctionDef) : ViewInfo :=
  let ms := parseApiViewDecorator f
  let methods := if ms.isEmpty then ["GET"] else ms
  { name := f.name, file := file.path, line := f.lineno,
    methods := methods.map (fun m => ⟨pyUpper m, f.docstring, f.lineno⟩),
    docstring := f.docstring }

/-- `DjangoAnalyzer._extract_views` over one parsed file (a parse failure is
caught and changes nothing). -/
def extractViewsFromFile (st : DjangoState) (file : DjangoFile) : DjangoState :=
  match file.nodes with
  | Option.none => st
  | some nodes =>
    nodes.foldl
      (fun st n =>
        match n with
        | .classDef c =>
          match getViewType c with
          | some vt =>
            if vt == "viewset" then
              { st with viewsets := dictInsert st.viewsets c.name (extractViewsetInfo file c) }
            else if vt == "apiview" then
              { st with viewsets := dictInsert st.viewsets c.name (extractApiviewInfo file c) }
            else st
          | Option.none => st
        | .funcDef f =>
          if hasApiViewDecorator f then
            { st with viewsets := dictInsert st.viewsets f.name (extractFunctionBasedView file f) }
          else st)
      st

/-- `DjangoAnalyzer._parse_url_patterns` over one file: every router match
whose captured target is not the stray `basename` keyword is appended, then
every `path()` match whose captured target is not a known non-view name. -/
def parseUrlPatternsFromFile (st : DjangoState) (file : DjangoFile) : DjangoState :=
  let afterRouter :=
    file.routerMatches.foldl
      (fun st m =>
        if m.2 == "basename" then st
        else { st with url_patterns := st.url_patterns ++ [UrlPattern.router m.1 m.2 file.path] })
      st
  file.pathMatches.foldl
    (fun st m =>
      if ["include", "path", "re_path", "name", "basename"].contains m.2 then st
      else { st with url_patterns := st.url_patterns ++ [UrlPattern.pathDecl m.1 m.2 file.path] })
    afterRouter

/-- The fixed standard-action table of `_create_viewset_endpoints`:
action name, HTTP method, path. -/
def actionMappings (pfx : String) : List (String × String × String) :=
  [("list", "GET", "/" ++ pfx ++ "/"),
   ("create", "POST", "/" ++ pfx ++ "/"),
   ("retrieve", "GET", "/" ++ pfx ++ "/{id}/"),
   ("update", "PUT", "/" ++ pfx ++ "/{id}/"),
   ("partial_update", "PATCH", "/" ++ pfx ++ "/{id}/"),
   ("destroy", "DELETE", "/" ++ pfx ++ "/{id}/")]

/-- `DjangoAnalyzer._get_viewset_parameters`: detail actions get a required
integer `id` path parameter; `list` gets optional `page`/`page_size` query
parameters. -/
def getViewsetParameters (action : String) : List EndpointParameter :=
  (if ["retrieve", "update", "partial_update", "destroy"].contains action then
    [{ name := "id", param_type := "path", data_type := "int", required := true }]
  else [])
  ++
  (if action == "list" then
    [{ name := "page", param_type := "query", data_type := "int", required := false },
     { name := "page_size", param_type := "query", data_type := "int", required := false }]
  else [])

/-- The `summary or default` idiom: Python `or` keeps the parsed summary only
when it is a truthy (nonempty) string. -/
def summaryOr (s : Option String) (deflt : String) : String :=
  match s with
  | some str => if str == "" then deflt else str
  | Option.none => deflt

/-- The body of the standard-action loop of `_create_viewset_endpoints`: a
discovered action found in the table yields one endpoint built from the table
row, the viewset docstring and `_get_viewset_parameters`. -/
def standardActionEndpoint (pfx : String) (vs : ViewInfo) (a : String) : List EndpointInfo :=
  match (actionMappings pfx).find? (fun row => row.1 == a) with
  | some row =>
    let sd := parseDocstring vs.docstring
    [{ path := .str row.2.2, method := row.2.1, function_name := a,
       summary := some (summaryOr sd.1 (pyTitle a ++ " " ++ pfx)),
       description := sd.2,
       parameters := getViewsetParameters a,
       request_model := vs.serializer, response_model := vs.serializer,
       tags := [.str (pyTitle pfx)],
       status_code := .int (if row.2.1 == "GET" then 200 else if row.2.1 == "POST" then 201 else 200),
       file_path := vs.file, line_number := vs.line }]
  | Option.none => []

/-- The standard-action half of `_create_viewset_endpoints`: the discovered
actions (or, when none were discovered, the whole table's keys) each yield
their table row's endpoint. -/
def viewsetStandardEndpoints (pfx : String) (vs : ViewInfo) : List EndpointInfo :=
  (if vs.actions.isEmpty then (actionMappings pfx).map (fun row => row.1) else vs.actions).flatMap
    (standardActionEndpoint pfx vs)

/-- The custom-action half of `_create_viewset_endpoints`: one endpoint per
method of each custom action, with path suffix `{id}/<name>/` when the action
is detail, `<name>/` otherwise, and an empty parameter list. -/
def viewsetCustomEndpoints (pfx : String) (vs : ViewInfo) : List EndpointInfo :=
  vs.custom_actions.flatMap (fun ca =>
    ca.methods.map (fun m =>
      let pathSuffix := if ca.detail.truthy then "{id}/" ++ ca.name ++ "/" else ca.name ++ "/"
      let sd := parseDocstring ca.docstring
      { path := .str ("/" ++ pfx ++ "/" ++ pathSuffix), method := pyUpper m,
        function_name := ca.name,
        summary := some (summaryOr sd.1 (pyTitle ca.name ++ " " ++ pfx)),
        description := sd.2,
        parameters := [],
        tags := [.str (pyTitle pfx)],
        status_code := .int 200,
        file_path := vs.file, line_number := ca.line }))

/-- `DjangoAnalyzer._create_viewset_endpoints`: the standard-action endpoints
followed by the custom-action endpoints. -/
def createViewsetEndpoints (pfx : String) (vs : ViewInfo) : List EndpointInfo :=
  viewsetStandardEndpoints pfx vs ++ viewsetCustomEndpoints pfx vs

/-- `DjangoAnalyzer._create_apiview_endpoints`: one endpoint per recorded
HTTP-method handler. -/
def createApiviewEndpoints (url : String) (v : ViewInfo) : List EndpointInfo :=
  v.methods.map (fun mi =>
    let sd := parseDocstring v.docstring
    { path := .str ("/" ++ url), method := mi.method, function_name := v.name,
      summary := some (summaryOr sd.1 v.name),
      description := sd.2,
      parameters := [],
      tags := [.str "API"],
      status_code := .int 200,
      file_path := v.file, line_number := v.line })

/-- `DjangoAnalyzer._create_endpoints_from_patterns`: each URL pattern whose
target is a recorded view contributes its endpoints; an unmatched pattern
contributes nothing. -/
def createEndpointsFromPatterns (patterns : List UrlPattern)
    (viewsets : List (String × ViewInfo)) : List EndpointInfo :=
  patterns.flatMap (fun p =>
    match p with
    | .router pfx target _ =>
      match dictFind viewsets target with
      | some vs => createViewsetEndpoints pfx vs
      | Option.none => []
    | .pathDecl url target _ =>
      match dictFind viewsets target with
      | some v => createApiviewEndpoints url v
      | Option.none => [])

/-- `DjangoAnalyzer.analyze` as invoked on an instance with state `st`:
`self.endpoints` is reset, then the three collection passes run (each
mutating the carried-over dicts and pattern list), then the join pass builds
the returned endpoints.  The updated instance state is returned alongside. -/
def djangoAnalyze (st : DjangoState) (files : List DjangoFile) :
    List EndpointInfo × DjangoState :=
  let st1 := files.foldl
    (fun st f =>
      if shouldSkipFile f.path || !(strContains f.path "serializers") then st
      else extractSerializersFromFile st f)
    st
  let st2 := files.foldl
    (fun st f =>
      if shouldSkipFile f.path || strContains f.path "admin" then st
      else extractViewsFromFile st f)
    st1
  let st3 := files.foldl
    (fun st f =>
      if strContains f.name "urls.py" then parseUrlPatternsFromFile st f else st)
    st2
  (createEndpointsFromPatterns st3.url_patterns st3.viewsets, st3)

/-! ## Convention detector, `src/analyzers/detector.py` -/

/-- A project as `detect_framework` probes it: whether `manage.py` exists at
the root, whether any settings-module glob matches, and the `glob("**/*.py")`
file sequence with each file's text (`none` models a read that raises and is
caught). -/
structure DetProject where
  hasManagePy : Bool
  hasSettingsGlob : Bool
  pyFiles : List (Option String)

/-- A line-anchored match of `from django` or `import django`
(the `^\s*from django|^\s*import django` MULTILINE pattern). -/
def hasDjangoImport (content : String) : Bool :=
  (content.splitOn "\n").any (fun l =>
    l.trimLeft.startsWith "from django" || l.trimLeft.startsWith "import django")

/-- A line-anchored match of `from fastapi` or `import fastapi` (MULTILINE). -/
def hasFastapiImport (content : String) : Bool :=
  (content.splitOn "\n").any (fun l =>
    l.trimLeft.startsWith "from fastapi" || l.trimLeft.startsWith "import fastapi")

/-- `detector._is_django_project`: `manage.py`, then the settings globs, then
a sampled scan of the first 20 files (a file whose read raises is skipped). -/
def isDjangoProject (p : DetProject) : Bool :=
  if p.hasManagePy then true
  else if p.hasSettingsGlob then true
  else
    (p.pyFiles.take 20).any (fun f =>
      match f with
      | some content => hasDjangoImport content
      | Option.none => false)

/-- `detector._is_fastapi_project`: a sampled scan of the first 20 files. -/
def isFastapiProject (p : DetProject) : Bool :=
  (p.pyFiles.take 20).any (fun f =>
    match f with
    | some content => hasFastapiImport content
    | Option.none => false)

/-- `detector.detect_framework`: Django signals first, then the FastAPI scan,
then the FastAPI default. -/
def detectFramework (p : DetProject) : String :=
  if isDjangoProject p then "django"
  else if isFastapiProject p then "fastapi"
  else "fastapi"

/-! ## Helper lemmas -/

theorem findSome?_append_of_none {α β : Type} (g : α → Option β) (l1 l2 : List α)
    (h : ∀ x ∈ l1, g x = Option.none) :
    (l1 ++ l2).findSome? g = l2.findSome? g := by
  induction l1 with
  | nil => simp
  | cons e es ih =>
    have he : g e = Option.none := h e (by simp)
    simp only [List.cons_append, List.findSome?_cons, he]
    exact ih (fun x hx => h x (by simp [hx]))

theorem extract_endpoint_eq_some {fp : String} {f : PyFunctionDef} {e : EndpointInfo}
    (h : extractEndpointFromFunction fp f = some e) :
    ∃ d ∈ f.decorator_list, ∃ m pth,
      decoratorRoute d = some (m, pth) ∧ e = buildEndpointInfo fp f d m pth := by
  unfold extractEndpointFromFunction at h
  obtain ⟨d, hd, hg⟩ := List.exists_of_findSome?_eq_some h
  refine ⟨d, hd, ?_⟩
  revert hg
  cases hr : decoratorRoute d with
  | none => simp
  | some mp =>
    intro hg
    simp only [Option.some.injEq] at hg
    exact ⟨mp.1, mp.2, rfl, hg.symm⟩

/-! ## Claim theorems -/

/-- Claim C9: `detect_framework` is total and returns exactly one tag out of
the closed set `django` / `fastapi`; it returns `django` exactly when one of
the Django signals fires (root `manage.py` first, then the settings globs,
then the sampled import scan, which reads at most the first 20 files), and
falls back to `fastapi` in every other case, never failing. -/
theorem detect_framework_closed_total :
    ∀ p : DetProject,
      (detectFramework p = "django" ∨ detectFramework p = "fastapi") ∧
      (detectFramework p = "django" ↔ isDjangoProject p = true) ∧
      (p.hasManagePy = true → detectFramework p = "django") ∧
      (isDjangoProject p = false → detectFramework p = "fastapi") ∧
      (isDjangoProject p =
        isDjangoProject ⟨p.hasManagePy, p.hasSettingsGlob, p.pyFiles.take 20⟩) := by
  intro p
  refine ⟨?_, ?_, ?_, ?_, ?_⟩
  · by_cases h : isDjangoProject p
    · left; simp [detectFramework, h]
    · right
      by_cases h2 : isFastapiProject p <;> simp [detectFramework, h, h2]
  · by_cases h : isDjangoProject p
    · simp [detectFramework, h]
    · by_cases h2 : isFastapiProject p <;> simp [detectFramework, h, h2]
  · intro h
    simp [detectFramework, isDjangoProject, h]
  · intro h
    by_cases h2 : isFastapiProject p <;> simp [detectFramework, h, h2]
  · simp [isDjangoProject, List.take_take]

/-- A project whose root holds `manage.py` is classified `django`
(witness for `detect_framework_closed_total`). -/
theorem detect_framework_closed_total_witness :
    detectFramework ⟨true, false, [some "import os"]⟩ = "django" :=
  (detect_framework_closed_total ⟨true, false, [some "import os"]⟩).2.2.1 rfl

/-- Claim C8: a file whose content fails to parse is skipped (its parse error
is caught inside `_analyze_file`), and the sequence `analyze` returns over a
file list containing the failing file equals the sequence over the same list
without it: endpoints of all other files are unaffected. -/
theorem parse_failure_file_skipped :
    ∀ (files1 files2 : List FastApiFile) (bad : FastApiFile),
      bad.funcs = Option.none →
      fastapiAnalyze (files1 ++ bad :: files2) = fastapiAnalyze (files1 ++ files2) := by
  intro files1 files2 bad h
  simp [fastapiAnalyze, List.flatMap_append, List.flatMap_cons, analyzeFile, h]

/-- A concrete run containing an unparseable file yields exactly the
endpoints of the remaining files (witness for `parse_failure_file_skipped`). -/
theorem parse_failure_file_skipped_witness :
    fastapiAnalyze ([⟨"app/main.py", some []⟩] ++ (⟨"app/broken.py", Option.none⟩ : FastApiFile) :: []) =
      fastapiAnalyze ([⟨"app/main.py", some []⟩] ++ []) :=
  parse_failure_file_skipped [⟨"app/main.py", some []⟩] [] ⟨"app/broken.py", Option.none⟩ rfl

/-- Claim C7: a URL declaration (router registration or path declaration)
whose target name is not a key of the recorded view dictionary contributes
zero endpoints — the join over the remaining patterns is exactly the join
without it, and no error is raised (the join is a total function). -/
theorem unmatched_url_declaration_dropped :
    ∀ (ps1 ps2 : List UrlPattern) (u : UrlPattern) (vs : List (String × ViewInfo)),
      dictFind vs u.target = Option.none →
      createEndpointsFromPatterns (ps1 ++ u :: ps2) vs =
        createEndpointsFromPatterns (ps1 ++ ps2) vs := by
  intro ps1 ps2 u vs h
  cases u with
  | router pfx t file =>
    simp only [UrlPattern.target] at h
    simp [createEndpointsFromPatterns, List.flatMap_append, List.flatMap_cons, h]
  | pathDecl url t file =>
    simp only [UrlPattern.target] at h
    simp [createEndpointsFromPatterns, List.flatMap_append, List.flatMap_cons, h]

/-- A router registration naming an unrecorded viewset is silently dropped
while a matched one before it still produces its endpoints (witness for
`unmatched_url_declaration_dropped`). -/
theorem unmatched_url_declaration_dropped_witness :
    createEndpointsFromPatterns
        ([UrlPattern.router "products" "ProductViewSet" "urls.py"] ++
          UrlPattern.router "ghost" "MissingViewSet" "urls.py" :: [])
        [("ProductViewSet", { name := "ProductViewSet", file := "views.py", line := 4,
                              actions := ["list"] })] =
      createEndpointsFromPatterns
        ([UrlPattern.router "products" "ProductViewSet" "urls.py"] ++ [])
        [("ProductViewSet", { name := "ProductViewSet", file := "views.py", line := 4,
                              actions := ["list"] })] :=
  unmatched_url_declaration_dropped
    [UrlPattern.router "products" "ProductViewSet" "urls.py"] []
    (UrlPattern.router "ghost" "MissingViewSet" "urls.py")
    [("ProductViewSet", { name := "ProductViewSet", file := "views.py", line := 4,
                          actions := ["list"] })]
    (by decide)

/-- Claim C6: when a function's decorator list holds several matching
HTTP-verb route markers, `_extract_endpoint_from_function` emits exactly one
endpoint, built from the first marker that matches; the later verb markers
are never consulted. -/
theorem fastapi_first_marker_wins :
    ∀ (fp : String) (f : PyFunctionDef) (ds1 ds2 : List PyExpr) (d : PyExpr)
      (m : String) (pth : PyConst),
      f.decorator_list = ds1 ++ d :: ds2 →
      (∀ e ∈ ds1, decoratorRoute e = Option.none) →
      decoratorRoute d = some (m, pth) →
      extractEndpointFromFunction fp f = some (buildEndpointInfo fp f d m pth) := by
  intro fp f ds1 ds2 d m pth hlist hnone hroute
  unfold extractEndpointFromFunction
  rw [hlist, findSome?_append_of_none _ _ _ (fun x hx => by simp [hnone x hx])]
  simp [List.findSome?_cons, hroute]

/-- The decorator of a two-marker function used below. -/
def decGetC6 : PyExpr := .call (.attribute (.name "app") "get") [.constant (.str "/items")] []

/-- The second marker, dropped by the extractor. -/
def decPostC6 : PyExpr := .call (.attribute (.name "app") "post") [.constant (.str "/items")] []

/-- A non-route decorator preceding the markers. -/
def decPlainC6 : PyExpr := .name "log_calls"

/-- A function carrying a plain decorator followed by two verb markers. -/
def funcC6 : PyFunctionDef :=
  { name := "items_handler", decorator_list := [decPlainC6, decGetC6, decPostC6],
    args := [], defaults := [] }

/-- A function with both `get` and `post` markers yields exactly the endpoint
of the first (`get`) marker (witness for `fastapi_first_marker_wins`). -/
theorem fastapi_first_marker_wins_witness :
    extractEndpointFromFunction "m.py" funcC6 =
      some (buildEndpointInfo "m.py" funcC6 decGetC6 "get" (.str "/items")) :=
  fastapi_first_marker_wins "m.py" funcC6 [decPlainC6] [decPostC6] decGetC6 "get"
    (.str "/items") rfl (by decide) (by decide)

theorem mkParam_required_iff_default (numArgs numDefaults : Nat) (defaults : List PyExpr)
    (i : Nat) (a : PyArg) :
    (mkParam numArgs numDefaults defaults i a).required = false ↔
      ((mkParam numArgs numDefaults defaults i a).default).isSome = true := by
  unfold mkParam
  by_cases h : (0 : Int) ≤ (i : Int) - ((numArgs : Int) - (numDefaults : Int)) <;>
    cases a.annot <;> simp [h]

theorem locOf_string_eq_query : locOf "string" = "query" := by decide

theorem mkParam_location (numArgs numDefaults : Nat) (defaults : List PyExpr)
    (i : Nat) (a : PyArg) :
    (mkParam numArgs numDefaults defaults i a).param_type =
      locOf (mkParam numArgs numDefaults defaults i a).data_type := by
  unfold mkParam
  cases a.annot with
  | none =>
    by_cases h : (0 : Int) ≤ (i : Int) - ((numArgs : Int) - (numDefaults : Int)) <;>
      simp [h, locOf_string_eq_query]
  | some ann =>
    by_cases h : (0 : Int) ≤ (i : Int) - ((numArgs : Int) - (numDefaults : Int)) <;> simp [h]

theorem mem_extractParamsAux (numArgs numDefaults : Nat) (defaults : List PyExpr) :
    ∀ (args : List PyArg) (i : Nat) (p : EndpointParameter),
      p ∈ extractParamsAux numArgs numDefaults defaults i args →
      ∃ j a, p = mkParam numArgs numDefaults defaults j a := by
  intro args
  induction args with
  | nil =>
    intro i p hp
    simp [extractParamsAux] at hp
  | cons a rest ih =>
    intro i p hp
    rw [extractParamsAux] at hp
    by_cases hs : (a.arg == "self" || a.arg == "cls") = true
    · rw [if_pos hs] at hp
      exact ih (i + 1) p hp
    · rw [if_neg hs] at hp
      rcases List.mem_cons.mp hp with h | h
      · exact ⟨i, a, h⟩
      · exact ih (i + 1) p h

theorem mem_extractParameters {f : PyFunctionDef} {p : EndpointParameter}
    (hp : p ∈ extractParameters f) :
    ∃ j a, p = mkParam f.args.length f.defaults.length f.defaults j a :=
  mem_extractParamsAux f.args.length f.defaults.length f.defaults f.args 0 p hp

/-- A parameter annotated with a type whose text contains both `Body` and
`Path` (used to separate the priority order from the claim's biconditional). -/
def funcC5 : PyFunctionDef :=
  { name := "handle_payload", decorator_list := [],
    args := [⟨"payload", some (.name "BodyPath")⟩], defaults := [] }

/-- Claim C5 (refuted): the extractor classifies a parameter whose annotation
text is `BodyPath` as `path`, although that text contains the substring
`Body` — so the location is not `body` exactly when the text contains `Body`:
the substring checks apply in priority order, not as independent
biconditionals. -/
theorem param_location_respectively_counterexample :
    ((extractParameters funcC5).map (fun p => (p.name, p.param_type, p.data_type)) =
      [("payload", "path", "BodyPath")]) ∧
    strContains "BodyPath" "Body" = true ∧
    ("path" : String) ≠ "body" := by decide

/-- A parameter with a bare `int` annotation, appearing in the URL path. -/
def funcBareIntC5 : PyFunctionDef :=
  { name := "read_item",
    decorator_list := [.call (.attribute (.name "app") "get") [.constant (.str "/items/{item_id}")] []],
    args := [⟨"item_id", some (.name "int")⟩], defaults := [] }

/-- Claim C5 (amended): for every parameter the single-pass extractor
produces, the location equals the first-match classification of the
parameter's captured type text — `path` if it contains `Path`, else `body`
if it contains `Body`, else `header` if it contains `Header`, else `query`
(an unannotated parameter keeps `query` with type text `string`); in
particular a bare `int` annotation on a parameter appearing in the URL path
still yields location `query`. -/
theorem param_location_priority_amended :
    (∀ (f : PyFunctionDef) (p : EndpointParameter), p ∈ extractParameters f →
      p.param_type = locOf p.data_type) ∧
    ((extractParameters funcBareIntC5).map (fun p => (p.name, p.param_type)) =
      [("item_id", "query")]) := by
  constructor
  · intro f p hp
    obtain ⟨j, a, rfl⟩ := mem_extractParameters hp
    exact mkParam_location _ _ _ _ _
  · decide

/-- The bare-`int` parameter's recorded location is the first-match
classification of its type text (witness for
`param_location_priority_amended`). -/
theorem param_location_priority_amended_witness :
    (⟨"item_id", "query", "int", true, Option.none, Option.none⟩ : EndpointParameter).param_type =
      locOf (⟨"item_id", "query", "int", true, Option.none, Option.none⟩ : EndpointParameter).data_type :=
  param_location_priority_amended.1 funcBareIntC5 _ (by decide)

/-- A viewset defining only `list`, as recorded by the second pass. -/
def vsListC2 : ViewInfo :=
  { name := "ProductViewSet", file := "views.py", line := 5, actions := ["list"] }

/-- Claim C2 (refuted): the joined `list` endpoint carries the synthesized
pagination parameters `page` and `page_size` with `required = false` and no
default value present, violating the claimed biconditional. -/
theorem required_default_invariant_counterexample :
    ((viewsetStandardEndpoints "products" vsListC2).flatMap (fun e => e.parameters)).map
        (fun p => (p.name, p.required, p.default)) =
      [("page", false, Option.none), ("page_size", false, Option.none)] := by decide

/-- A function with one defaulted annotated parameter. -/
def funcC2w : PyFunctionDef :=
  { name := "search", decorator_list := [],
    args := [⟨"q", some (.name "int")⟩], defaults := [.constant (.int 5)] }

/-- Claim C2 (amended): `required = false` iff a default value is present for
every parameter the single-pass extractor produces, and for every multi-pass
synthesized parameter except the two pagination query parameters `page` and
`page_size` of the `list` action, which are optional with no default. -/
theorem required_iff_default_amended :
    (∀ (f : PyFunctionDef) (p : EndpointParameter), p ∈ extractParameters f →
      (p.required = false ↔ p.default.isSome = true)) ∧
    (∀ (a : String) (p : EndpointParameter), p ∈ getViewsetParameters a →
      p.name = "page" ∨ p.name = "page_size" ∨ (p.required = false ↔ p.default.isSome = true)) ∧
    (∀ p ∈ getViewsetParameters "list", p.required = false ∧ p.default = Option.none) := by
  refine ⟨?_, ?_, ?_⟩
  · intro f p hp
    obtain ⟨j, a, rfl⟩ := mem_extractParameters hp
    exact mkParam_required_iff_default _ _ _ _ _
  · intro a p hp
    rcases List.mem_append.mp hp with h | h
    · split at h
      · simp at h
        subst h
        right; right; simp
      · simp at h
    · split at h
      · rcases List.mem_cons.mp h with h2 | h2
        · left; rw [h2]
        · simp at h2
          right; left; rw [h2]
      · simp at h
  · decide

/-- The single defaulted parameter of `funcC2w` is optional with its default
present (witness for `required_iff_default_amended`). -/
theorem required_iff_default_amended_witness :
    ((⟨"q", "query", "int", false, some "5", Option.none⟩ : EndpointParameter).required = false ↔
      (⟨"q", "query", "int", false, some "5", Option.none⟩ : EndpointParameter).default.isSome = true) :=
  required_iff_default_amended.1 funcC2w _ (by decide)

/-- Whether a decorator is a call carrying a keyword argument named `k`. -/
def hasKw (d : PyExpr) (k : String) : Bool :=
  match d with
  | .call _ _ kws => kws.any (fun kw => kw.1 == some k)
  | _ => false

theorem extractStatusCode_of_no_kw {d : PyExpr} (h : hasKw d "status_code" = false) :
    extractStatusCode d = Option.none := by
  cases d <;> simp only [extractStatusCode]
  rename_i kws
  unfold hasKw at h
  rw [List.any_eq_false] at h
  rw [List.findSome?_eq_none_iff]
  intro kw hkw
  have h2 := h kw hkw
  simp only [Bool.not_eq_true] at h2
  simp [h2]

theorem extractTags_of_no_kw {d : PyExpr} (h : hasKw d "tags" = false) :
    extractTags d = [] := by
  cases d <;> simp only [extractTags]
  rename_i kws
  unfold hasKw at h
  rw [List.any_eq_false] at h
  rw [List.flatMap_eq_nil_iff]
  intro kw hkw
  have h2 := h kw hkw
  simp only [Bool.not_eq_true] at h2
  simp [h2]

/-- A viewset defining only `create`, as recorded by the second pass. -/
def vsCreateC3 : ViewInfo :=
  { name := "ProductViewSet", file := "views.py", line := 5, actions := ["create"] }

/-- Claim C3 (refuted): the joined `create` endpoint of a viewset declares no
status code anywhere in its source, yet the synthesized record carries
`status_code = 201`, not 200. -/
theorem status_code_default_counterexample :
    ((viewsetStandardEndpoints "products" vsCreateC3).map (fun e => e.status_code) =
      [PyConst.int 201]) ∧
    PyConst.int 201 ≠ PyConst.int 200 := by decide

/-- Claim C3 (amended): a single-pass record whose function's markers carry no
`status_code` keyword gets status code 200, and one whose markers carry no
`tags` keyword gets an empty tag list; a joined standard-action record gets
201 when its method is POST (the `create` action) and 200 otherwise; joined
custom-action and class-view records always get 200. -/
theorem status_tags_defaults_amended :
    (∀ (fp : String) (f : PyFunctionDef) (e : EndpointInfo),
      extractEndpointFromFunction fp f = some e →
      (∀ d ∈ f.decorator_list, hasKw d "status_code" = false) →
      e.status_code = .int 200) ∧
    (∀ (fp : String) (f : PyFunctionDef) (e : EndpointInfo),
      extractEndpointFromFunction fp f = some e →
      (∀ d ∈ f.decorator_list, hasKw d "tags" = false) →
      e.tags = []) ∧
    (∀ (pfx : String) (vs : ViewInfo) (e : EndpointInfo),
      e ∈ viewsetStandardEndpoints pfx vs →
      e.status_code = .int (if e.method == "POST" then 201 else 200)) ∧
    (∀ (pfx : String) (vs : ViewInfo) (e : EndpointInfo),
      e ∈ viewsetCustomEndpoints pfx vs → e.status_code = .int 200) ∧
    (∀ (url : String) (v : ViewInfo) (e : EndpointInfo),
      e ∈ createApiviewEndpoints url v → e.status_code = .int 200) := by
  refine ⟨?_, ?_, ?_, ?_, ?_⟩
  · intro fp f e he hkw
    obtain ⟨d, hd, m, pth, hroute, rfl⟩ := extract_endpoint_eq_some he
    simp [buildEndpointInfo, statusCodeVal, extractStatusCode_of_no_kw (hkw d hd)]
  · intro fp f e he hkw
    obtain ⟨d, hd, m, pth, hroute, rfl⟩ := extract_endpoint_eq_some he
    simp [buildEndpointInfo, extractTags_of_no_kw (hkw d hd)]
  · intro pfx vs e he
    obtain ⟨a, ha, he2⟩ := List.mem_flatMap.mp he
    unfold standardActionEndpoint at he2
    rcases hfind : (actionMappings pfx).find? (fun row => row.1 == a) with _ | row
    · rw [hfind] at he2
      simp at he2
    · rw [hfind] at he2
      simp only [List.mem_singleton] at he2
      subst he2
      by_cases hG : row.2.1 = "GET"
      · simp [hG]
      · simp [hG]
  · intro pfx vs e he
    obtain ⟨ca, hca, he2⟩ := List.mem_flatMap.mp he
    obtain ⟨m, hm, he3⟩ := List.mem_map.mp he2
    subst he3
    rfl
  · intro url v e he
    obtain ⟨mi, hmi, he2⟩ := List.mem_map.mp he
    subst he2
    rfl

/-- A single-pass endpoint from a marker with no keywords gets status code
200 (witness for `status_tags_defaults_amended`). -/
theorem status_tags_defaults_amended_witness :
    (buildEndpointInfo "m.py" funcBareIntC5
        (.call (.attribute (.name "app") "get") [.constant (.str "/items/{item_id}")] [])
        "get" (.str "/items/{item_id}")).status_code = .int 200 :=
  status_tags_defaults_amended.1 "m.py" funcBareIntC5 _ rfl (by decide)

/-- A viewset defining only `list` and `retrieve`. -/
def vsListRetrieveC4 : ViewInfo :=
  { name := "ProductViewSet", file := "views.py", line := 5,
    actions := ["list", "retrieve"] }

/-- A viewset on which no standard action was discovered. -/
def vsNoActionsC4 : ViewInfo :=
  { name := "ProductViewSet", file := "views.py", line := 5 }

/-- Claim C4: a router registration matched to a recorded viewset synthesizes
exactly one endpoint per discovered standard action, with method and path
drawn from the fixed table; when no standard actions were discovered the full
six-row table is assumed; a viewset defining only `list` and `retrieve`
yields exactly `GET /products/` and `GET /products/{id}/`. -/
theorem viewset_join_actions_table :
    (∀ (pfx target file : String) (viewsets : List (String × ViewInfo)) (vs : ViewInfo),
      dictFind viewsets target = some vs →
      createEndpointsFromPatterns [UrlPattern.router pfx target file] viewsets =
        createViewsetEndpoints pfx vs) ∧
    (∀ (pfx : String) (vs : ViewInfo), vs.custom_actions = [] →
      (createViewsetEndpoints pfx vs).map (fun e => (e.function_name, e.method, e.path)) =
        (if vs.actions.isEmpty then (actionMappings pfx).map (fun row => row.1)
         else vs.actions).flatMap
          (fun a =>
            match (actionMappings pfx).find? (fun row => row.1 == a) with
            | some row => [(a, row.2.1, PyConst.str row.2.2)]
            | Option.none => [])) ∧
    ((createViewsetEndpoints "products" vsListRetrieveC4).map
        (fun e => (e.function_name, e.method, e.path)) =
      [("list", "GET", PyConst.str "/products/"),
       ("retrieve", "GET", PyConst.str "/products/{id}/")]) ∧
    ((createViewsetEndpoints "products" vsNoActionsC4).map
        (fun e => (e.function_name, e.method, e.path)) =
      [("list", "GET", PyConst.str "/products/"),
       ("create", "POST", PyConst.str "/products/"),
       ("retrieve", "GET", PyConst.str "/products/{id}/"),
       ("update", "PUT", PyConst.str "/products/{id}/"),
       ("partial_update", "PATCH", PyConst.str "/products/{id}/"),
       ("destroy", "DELETE", PyConst.str "/products/{id}/")]) := by
  refine ⟨?_, ?_, ?_, ?_⟩
  · intro pfx target file viewsets vs h
    simp [createEndpointsFromPatterns, h]
  · intro pfx vs hc
    simp only [createViewsetEndpoints, viewsetCustomEndpoints, hc, List.flatMap_nil,
      List.append_nil, viewsetStandardEndpoints, List.map_flatMap]
    apply List.flatMap_congr
    intro a _
    unfold standardActionEndpoint
    rcases hfind : (actionMappings pfx).find? (fun row => row.1 == a) with _ | row
    · simp [hfind]
    · simp [hfind]
  · decide
  · decide

/-- A matched registration for the `list`/`retrieve` viewset produces exactly
that viewset's endpoints (witness for `viewset_join_actions_table`). -/
theorem viewset_join_actions_table_witness :
    createEndpointsFromPatterns [UrlPattern.router "products" "ProductViewSet" "urls.py"]
        [("ProductViewSet", vsListRetrieveC4)] =
      createViewsetEndpoints "products" vsListRetrieveC4 :=
  viewset_join_actions_table.1 "products" "ProductViewSet" "urls.py"
    [("ProductViewSet", vsListRetrieveC4)] vsListRetrieveC4 (by decide)

/-- A viewset with one detail custom action (`activate`, POST). -/
def vsDetailC10 : ViewInfo :=
  { name := "ProductViewSet", file := "views.py", line := 5,
    custom_actions := [{ name := "activate", methods := ["post"], detail := .bool true,
                         line := 12 }] }

/-- The endpoint the detail custom action of `vsDetailC10` synthesizes. -/
def activateEndpointC10 : EndpointInfo :=
  { path := .str "/products/{id}/activate/", method := "POST",
    function_name := "activate", summary := some "Activate products",
    parameters := [], tags := [.str "Products"], status_code := .int 200,
    file_path := "views.py", line_number := 12 }

/-- Claim C10: every synthesized custom-action endpoint has an empty
parameter list — including detail actions whose path contains `{id}/` —
while every standard detail-action endpoint (`retrieve`, `update`,
`partial_update`, `destroy`) carries exactly the required integer path
parameter `id`. -/
theorem custom_params_empty_standard_id :
    (∀ (pfx : String) (vs : ViewInfo) (e : EndpointInfo),
      e ∈ viewsetCustomEndpoints pfx vs → e.parameters = []) ∧
    (∀ (pfx : String) (vs : ViewInfo) (e : EndpointInfo),
      e ∈ viewsetStandardEndpoints pfx vs →
      (e.function_name = "retrieve" ∨ e.function_name = "update" ∨
       e.function_name = "partial_update" ∨ e.function_name = "destroy") →
      e.parameters =
        [{ name := "id", param_type := "path", data_type := "int", required := true }]) ∧
    ((viewsetCustomEndpoints "products" vsDetailC10).map
        (fun e => (e.path, e.method, e.parameters)) =
      [(PyConst.str "/products/{id}/activate/", "POST", ([] : List EndpointParameter))]) := by
  refine ⟨?_, ?_, ?_⟩
  · intro pfx vs e he
    obtain ⟨ca, hca, he2⟩ := List.mem_flatMap.mp he
    obtain ⟨m, hm, he3⟩ := List.mem_map.mp he2
    subst he3
    rfl
  · intro pfx vs e he hname
    obtain ⟨a, ha, he2⟩ := List.mem_flatMap.mp he
    unfold standardActionEndpoint at he2
    rcases hfind : (actionMappings pfx).find? (fun row => row.1 == a) with _ | row
    · rw [hfind] at he2
      simp at he2
    · rw [hfind] at he2
      simp only [List.mem_singleton] at he2
      subst he2
      simp only at hname
      rcases hname with h | h | h | h <;>
        · subst h
          rfl
  · decide

/-- The synthesized detail custom-action endpoint has no parameters even
though its path contains `{id}/` (witness for
`custom_params_empty_standard_id`). -/
theorem custom_params_empty_standard_id_witness :
    activateEndpointC10.parameters = [] :=
  custom_params_empty_standard_id.1 "products" vsDetailC10 activateEndpointC10 (by decide)

/-- The `list` method of the demonstration viewset. -/
def listMethodC1 : PyFunctionDef :=
  { name := "list", decorator_list := [], args := [], defaults := [], lineno := 11 }

/-- A `ModelViewSet` subclass defining only `list`. -/
def productViewSetC1 : PyClassDef :=
  { name := "ProductViewSet", bases := [.name "ModelViewSet"],
    body := [.funcDef listMethodC1], lineno := 10 }

/-- The views file of the demonstration project (`ast.walk` also yields the
class's method as a `FunctionDef` node). -/
def viewsFileC1 : DjangoFile :=
  { path := "shop/views.py", name := "views.py",
    nodes := some [.classDef productViewSetC1, .funcDef listMethodC1] }

/-- The urls file of the demonstration project, whose text matches one router
registration. -/
def urlsFileC1 : DjangoFile :=
  { path := "shop/urls.py", name := "urls.py", nodes := some [],
    routerMatches := [("products", "ProductViewSet")] }

/-- The demonstration project's file list. -/
def djangoFilesC1 : List DjangoFile := [viewsFileC1, urlsFileC1]

/-- Claim C1 (refuted; code bug): the multi-pass analyzer's `analyze()`
resets `self.endpoints` but not `self.url_patterns` / `self.viewsets` /
`self.serializers`, so state does carry over between calls on one instance:
on a one-viewset project the first call returns one endpoint, while a second
call on the unchanged file tree returns two (the URL pattern is recorded
twice), so the serialized outputs are not byte-for-byte equal. -/
theorem django_analyze_state_carryover :
    ((djangoAnalyze DjangoState.initial djangoFilesC1).1.length = 1) ∧
    ((djangoAnalyze (djangoAnalyze DjangoState.initial djangoFilesC1).2 djangoFilesC1).1.length = 2) ∧
    (djangoAnalyze (djangoAnalyze DjangoState.initial djangoFilesC1).2 djangoFilesC1).1 ≠
      (djangoAnalyze DjangoState.initial djangoFilesC1).1 := by
  refine ⟨by decide, by decide, by decide⟩
